import Mathlib

/-!
Verification of the RBI24 Telegram bot (src/index.js) against its
natural-language specification.  Each definition below is a shallow
embedding of one function of the source file; theorems settle the
spec claims about them.

Conventions of the embedding:
* Sheet cells are `String`s, timestamps used arithmetically are `Nat`
  milliseconds, Telegram message ids are `Nat`.
* A JavaScript value that can be `null`/absent is an `Option`.
* Each update handler is embedded as a pure function from its inputs
  (current table contents, session row, incoming text, and an oracle
  giving the message id returned by each outbound send) to the ordered
  list of side effects it performs plus the final stored state.
* `telegramCall` swallows transport errors and returns `null`, so the
  transport is modelled as an outcome value, never as an exception;
  the Google-Sheets store operations are the only throwing operations
  and are modelled with `Except` where a claim depends on them.
-/

namespace RBI24

/-- JavaScript `a || b` on strings (empty string is falsy). -/
def jsOr (a b : String) : String := if a = "" then b else a

/-- Model of JavaScript `String.prototype.toLowerCase` (ASCII case fold,
which covers every value the program compares: step names, emails,
"Yes"/"No" flags). -/
def jsToLower (s : String) : String := ⟨s.data.map Char.toLower⟩

/-- Model of JavaScript `String(x).trim() === ""`: every character is
whitespace. -/
def jsBlank (s : String) : Bool := s.data.all Char.isWhitespace

/-- `24 * 60 * 60 * 1000` milliseconds, the window used by both limiters. -/
def dayMs : Nat := 24 * 60 * 60 * 1000

-- ========================================
-- Rate limiters (src/index.js `canSendTicket`, `canSendEmailToUser`)
-- ========================================

/-- One row of the `TicketRateLimits` sheet: `[UserID, Count, LastTicketAt]`
(the user id is the lookup key and is kept outside the row model). -/
structure TicketRL where
  count : Nat
  lastAt : Nat
deriving DecidableEq, Repr

/-- `canSendTicket` (src/index.js lines 580-606): read the counter row;
missing row appends `[userId, 1, now]` and allows; otherwise if
`lastTicketAt > now - 24h` then deny at `count >= 3` without touching the
row, else increment and allow; an expired window resets to count 1.
Returns the allow flag and the row as stored after the call
(`lastSent > oneDayAgo` over integer milliseconds is `now < lastAt + dayMs`). -/
def canSendTicketM : Option TicketRL → Nat → Bool × TicketRL
  | none, now => (true, ⟨1, now⟩)
  | some r, now =>
      if now < r.lastAt + dayMs then
        if 3 ≤ r.count then (false, r)
        else (true, ⟨r.count + 1, now⟩)
      else (true, ⟨1, now⟩)

/-- One row of the `EmailLog` sheet: `[UserID, Email, Count, LastSentAt]`. -/
structure EmailRL where
  email : String
  count : Nat
  lastAt : Nat
deriving DecidableEq, Repr

/-- `canSendEmailToUser` (src/index.js lines 539-565): identical window
logic to `canSendTicketM` with the same limit 3; a fresh append also
stores `email || ""`; the increment and reset branches leave the stored
email untouched. -/
def canSendEmailM : Option EmailRL → String → Nat → Bool × EmailRL
  | none, em, now => (true, ⟨em, 1, now⟩)
  | some r, _, now =>
      if now < r.lastAt + dayMs then
        if 3 ≤ r.count then (false, r)
        else (true, { r with count := r.count + 1, lastAt := now })
      else (true, { r with count := 1, lastAt := now })

/-- Run `canSendTicket` on a list of successive call times, returning the
allow flags and the final stored row (present once at least one call ran). -/
def tickRun (s : Option TicketRL) : List Nat → List Bool × Option TicketRL
  | [] => ([], s)
  | t :: ts =>
      let p := canSendTicketM s t
      let q := tickRun (some p.2) ts
      (p.1 :: q.1, q.2)

/-- Run `canSendEmailToUser` on a list of successive call times. -/
def emailRun (s : Option EmailRL) (em : String) : List Nat → List Bool × Option EmailRL
  | [] => ([], s)
  | t :: ts =>
      let p := canSendEmailM s em t
      let q := emailRun (some p.2) em ts
      (p.1 :: q.1, q.2)

-- ========================================
-- Email validation (src/index.js `isValidEmail`)
-- ========================================

/-- `cs` has no whitespace character (the `\s` class of the regex). -/
def noWs (cs : List Char) : Bool := cs.all (fun c => !c.isWhitespace)

/-- `isValidEmail` (src/index.js line 358): the anchored regex
`[^\s@]+@[^\s@]+\.[^\s@]+`.  A string matches iff it splits as
`A ++ "@" ++ D` with `A` nonempty and free of whitespace and `@`,
`D` free of whitespace and `@`, and `D` containing a dot that has at
least one character on each side (regex backtracking lets the middle
block absorb any earlier dots). -/
def isValidEmail (s : String) : Bool :=
  let cs := s.toList
  let a := cs.takeWhile (fun c => c ≠ '@')
  match cs.dropWhile (fun c => c ≠ '@') with
  | '@' :: d =>
      !a.isEmpty && noWs a && !d.contains '@' && noWs d &&
      ((d.drop 1).dropLast.contains '.')
  | _ => false

-- ========================================
-- Sheet rows and side effects
-- ========================================

/-- One row of the `Users` sheet. -/
structure UserRow where
  userId : String
  username : String
  firstName : String
  lastName : String
  email : String
  emailConfirmed : String
  joinedAt : String
  lastActive : String
deriving DecidableEq, Repr

/-- One row of the `State` sheet (one session per user). -/
structure Session where
  step : String
  tempData : String
  lastMenu : String
  tempEmail : String
deriving DecidableEq, Repr

/-- The empty (idle) session row written by `clearUserState`. -/
def clearedSession : Session := ⟨"", "", "", ""⟩

/-- One row of the `Tickets` sheet. -/
structure Ticket where
  ticketId : String
  userId : String
  email : String
  message : String
  answer : String
  createdAt : String
  answeredAt : String
  notified : String
deriving DecidableEq, Repr

/-- One externally visible side effect of a handler, in program order.
Message ids carried by `sendMsg` come from the transport (an `Option Nat`
oracle argument of each handler: `none` models a failed send, because
`sendMessage` returns `null` on any transport error). -/
inductive Eff where
  | writeSession : String → Session → Eff
  | writeUsers : List UserRow → Eff
  | writeEmailLog : EmailRL → Eff
  | writeTicketLimit : TicketRL → Eff
  | appendTicket : Ticket → Eff
  | writeTicket : Nat → Ticket → Eff
  | sendMsg : String → Option Nat → Eff
  | editMsg : String → String → Eff
  | delMsg : String → String → Eff
  | answerCb : Eff
  | logAction : String → Eff
  | readTable : String → Eff
deriving DecidableEq, Repr

-- ========================================
-- User management (src/index.js `registerOrUpdateUser`)
-- ========================================

/-- The in-place field updates `registerOrUpdateUser` performs on an
existing row (src/index.js lines 406-419): names via `x || row || ""`,
email/confirmed only when truthy, `joinedAt` backfilled when blank,
`lastActive` always set to now. -/
def applyUserUpdate (r : UserRow) (firstName lastName username email emailConfirmed now : String) :
    UserRow :=
  { r with
    username := jsOr username (jsOr r.username ""),
    firstName := jsOr firstName (jsOr r.firstName ""),
    lastName := jsOr lastName (jsOr r.lastName ""),
    email := if email = "" then r.email else email,
    emailConfirmed := if emailConfirmed = "" then r.emailConfirmed else emailConfirmed,
    joinedAt := if jsBlank r.joinedAt then now else r.joinedAt,
    lastActive := now }

/-- `registerOrUpdateUser` (src/index.js lines 401-432): update the first
row whose key matches, else append a fresh row.  `email = ""` models the
`null` email argument. -/
def registerOrUpdateUserM (users : List UserRow)
    (userId firstName lastName username email emailConfirmed now : String) : List UserRow :=
  match users with
  | [] => [⟨userId, username, firstName, lastName, email, jsOr emailConfirmed "No", now, now⟩]
  | r :: rs =>
      if r.userId = userId then
        applyUserUpdate r firstName lastName username email emailConfirmed now :: rs
      else
        r :: registerOrUpdateUserM rs userId firstName lastName username email emailConfirmed now

/-- Look a user up by identity key (first matching row, as
`findIndexByFirstCol` does). -/
def findUser (users : List UserRow) (userId : String) : Option UserRow :=
  users.find? (fun r => r.userId = userId)

/-- The duplicate-email test of the `awaiting_email_1` handler
(src/index.js lines 1230-1234): some row holds the same email
case-insensitively under a different identity. -/
def usedByOther (users : List UserRow) (userId text : String) : Bool :=
  users.any (fun r => jsToLower r.email = jsToLower text && r.userId ≠ userId)

-- ========================================
-- Menu lifecycle (src/index.js `deleteMenuIfExists`, back_to_main handlers)
-- ========================================

/-- Outcome of one raw transport call: the axios promise either resolves
with a response (`ok` flag plus `message_id`) or rejects. -/
inductive TgOutcome where
  | resp : Bool → Nat → TgOutcome
  | thrown : String → TgOutcome
deriving DecidableEq, Repr

/-- `telegramCall` (src/index.js lines 198-211): returns `res.data` on
success and `null` after catching a rejected transport promise; it never
re-raises. -/
def telegramCallM : TgOutcome → Option (Bool × Nat)
  | .resp ok mid => some (ok, mid)
  | .thrown _ => none

/-- `sendMessage` (src/index.js lines 213-224):
`r && r.ok ? r.result.message_id : null`. -/
def sendMessageM (o : TgOutcome) : Option Nat :=
  match telegramCallM o with
  | some (true, mid) => some mid
  | some (false, _) => none
  | none => none

/-- `deleteMenuIfExists` (src/index.js lines 516-528): when a menu id is
tracked and differs from the `except` id, delete that message remotely and
blank the tracked id.  `delOutcome` is the transport outcome of the remote
delete; `deleteMessage` and `telegramCall` both swallow it, so it
influences nothing. -/
def deleteMenuIfExistsM (userId : String) (s : Session) (except : Option String)
    (delOutcome : TgOutcome) : List Eff × Session :=
  let keep : Bool := match except with
    | none => false
    | some e => s.lastMenu = e
  if s.lastMenu ≠ "" ∧ ¬keep then
    let _ := telegramCallM delOutcome
    ([.delMsg userId s.lastMenu, .writeSession userId { s with lastMenu := "" }],
     { s with lastMenu := "" })
  else ([], s)

/-- The `back_to_main` callback handler (src/index.js lines 800-809):
delete the tracked menu unless it is the message hosting the pressed
button, send a fresh main menu, record its id when the send succeeded,
log the action. -/
def backToMain (userId : String) (s : Session) (cbMid : String) (newMid : Option Nat)
    (delOutcome : TgOutcome) : List Eff × Session :=
  let d := deleteMenuIfExistsM userId s (some cbMid) delOutcome
  match newMid with
  | some m =>
      (d.1 ++ [.sendMsg userId (some m),
               .writeSession userId { d.2 with lastMenu := toString m },
               .logAction "back_to_main"],
       { d.2 with lastMenu := toString m })
  | none => (d.1 ++ [.sendMsg userId none, .logAction "back_to_main"], d.2)

/-- The `back_to_main_send` callback handler (src/index.js lines 811-819):
same as `back_to_main` but with no `except` id and no action log. -/
def backToMainSend (userId : String) (s : Session) (newMid : Option Nat)
    (delOutcome : TgOutcome) : List Eff × Session :=
  let d := deleteMenuIfExistsM userId s none delOutcome
  match newMid with
  | some m =>
      (d.1 ++ [.sendMsg userId (some m),
               .writeSession userId { d.2 with lastMenu := toString m }],
       { d.2 with lastMenu := toString m })
  | none => (d.1 ++ [.sendMsg userId none], d.2)

-- ========================================
-- Flow-step handlers (src/index.js `handleUpdate`)
-- ========================================

/-- The `awaiting_email_1` text handler (src/index.js lines 1221-1248):
reject a syntactically bad email, reject an email registered to another
identity, otherwise persist step `awaiting_email_2` with the draft and
then send the confirmation prompt. -/
def awaitingEmail1 (users : List UserRow) (userId : String) (s : Session) (text : String)
    (mid : Option Nat) : List Eff × Session :=
  if ¬isValidEmail text then ([.sendMsg userId mid], s)
  else if usedByOther users userId text then ([.sendMsg userId mid], s)
  else
    let s1 := { s with step := "awaiting_email_2", tempData := text }
    ([.writeSession userId s1, .sendMsg userId mid], s1)

/-- The `awaiting_ticket_email_1` text handler (src/index.js lines
1284-1297): only the syntactic check guards advancement; there is no
duplicate-email lookup in this flow. -/
def awaitingTicketEmail1 (userId : String) (s : Session) (text : String)
    (mid : Option Nat) : List Eff × Session :=
  if ¬isValidEmail text then ([.sendMsg userId mid], s)
  else
    let s1 := { s with step := "awaiting_ticket_email_2", tempData := text }
    ([.writeSession userId s1, .sendMsg userId mid], s1)

/-- The `awaiting_email_2` confirmation handler (src/index.js lines
1251-1279).  A case-insensitive mismatch sends the error prompt and
returns the flow to `awaiting_email_1` with the draft discarded.  A match
writes the user row (email := the step-1 draft, confirmed "Yes"), runs the
welcome-mail rate limiter, deletes any tracked menu, sends the success
menu, records its id, then clears the whole session row.
Oracles: `midErr`/`midMenu`/`midMail` are the transport results of the
three possible sends, `emailLog`/`nowMs` feed the limiter, `delOutcome`
the menu delete. -/
def awaitingEmail2 (users : List UserRow) (emailLog : Option EmailRL)
    (userId firstName lastName username now : String) (nowMs : Nat) (s : Session)
    (text : String) (midErr midMenu midMail : Option Nat) (delOutcome : TgOutcome) :
    List Eff × Session × List UserRow :=
  if jsToLower text ≠ jsToLower s.tempData then
    let s1 := { s with step := "awaiting_email_1", tempData := "" }
    ([.sendMsg userId midErr, .writeSession userId s1], s1, users)
  else
    let users1 := registerOrUpdateUserM users userId firstName lastName username
        s.tempData "Yes" now
    let rl := canSendEmailM emailLog s.tempData nowMs
    let mailEffs : List Eff :=
      if rl.1 then [.writeEmailLog rl.2, .sendMsg "ADMIN_CHAT_ID" midMail]
      else []
    let d := deleteMenuIfExistsM userId s none delOutcome
    let menuEffs : List Eff :=
      match midMenu with
      | some m => [.sendMsg userId (some m),
                   .writeSession userId { d.2 with lastMenu := toString m }]
      | none => [.sendMsg userId none]
    ([.writeUsers users1] ++ mailEffs ++ d.1 ++ menuEffs ++
      [.writeSession userId clearedSession, .logAction "email_registered"],
     clearedSession, users1)

/-- The `support_ticket` callback handler (src/index.js lines 1026-1053):
consult (and, when allowed, persist) the ticket rate limiter first; a
denial only answers the callback; an allowed press deletes the tracked
menu and enters the ticket flow at `awaiting_ticket_message` (confirmed
email on file, carried in tempData) or `awaiting_ticket_email_1`. -/
def supportTicket (rl : Option TicketRL) (nowMs : Nat) (userRec : Option UserRow)
    (userId : String) (s : Session) (mid : Option Nat) (delOutcome : TgOutcome) :
    List Eff × Session :=
  let p := canSendTicketM rl nowMs
  if p.1 = false then ([.readTable "TicketRateLimits", .answerCb], s)
  else
    let d := deleteMenuIfExistsM userId s none delOutcome
    let confirmed : Bool := match userRec with
      | some u => u.email ≠ "" ∧ u.emailConfirmed = "Yes"
      | none => false
    let s1 :=
      if confirmed then
        { d.2 with step := "awaiting_ticket_message",
                   tempData := (userRec.map (·.email)).getD "" }
      else { d.2 with step := "awaiting_ticket_email_1", tempData := "" }
    ([.readTable "TicketRateLimits", .writeTicketLimit p.2, .readTable "Users"] ++ d.1 ++
      [.writeSession userId s1, .sendMsg userId mid, .logAction "started_ticket"],
     s1)

-- ========================================
-- Ticket subsystem (creation, admin reply, sync scan)
-- ========================================

/-- The ticket row appended by the `awaiting_ticket_message` handler
(src/index.js line 1325): empty answer, empty answeredAt, Notified "No". -/
def createTicketRow (tid userId email text createdAt : String) : Ticket :=
  ⟨tid, userId, email, text, "", createdAt, "", "No"⟩

/-- First row (0-based) of the `Tickets` sheet whose id matches, with the
row itself — the linear scan of the reply handlers. -/
def findTicketIdx : List Ticket → String → Option (Nat × Ticket)
  | [], _ => none
  | t :: ts, tid =>
      if t.ticketId = tid then some (0, t)
      else (findTicketIdx ts tid).map (fun p => (p.1 + 1, p.2))

/-- Replace the row at index `i`. -/
def setTicketAt : List Ticket → Nat → Ticket → List Ticket
  | [], _, _ => []
  | _ :: ts, 0, t => t :: ts
  | u :: ts, Nat.succ i, t => u :: setTicketAt ts i t

/-- The `awaiting_ticket_reply` admin handler (src/index.js lines
1368-1417, duplicated at 1145-1195): missing ticket clears the session
and reports; otherwise write the row with the new answer, `answeredAt :=
now` and Notified "No", attempt delivery to the owner (`mid` is the
transport result; `sendMessage` cannot raise, so the surrounding
`try/catch` always completes), write Notified "Yes", clear the session
and confirm to the admin. -/
def adminReply (tickets : List Ticket) (adminId ticketId text now : String)
    (mid midAdmin : Option Nat) : List Eff × List Ticket :=
  match findTicketIdx tickets ticketId with
  | none =>
      ([.sendMsg adminId midAdmin, .writeSession adminId clearedSession], tickets)
  | some (i, t) =>
      let t1 := { t with answer := text, answeredAt := now, notified := "No" }
      let t2 := { t1 with notified := "Yes" }
      ([.writeTicket i t1, .sendMsg t.userId mid, .writeTicket i t2,
        .writeSession adminId clearedSession, .sendMsg adminId midAdmin],
       setTicketAt tickets i t2)

/-- One row of the `/admin/sync` scan (src/index.js lines 1685-1712):
rows with a non-empty answer whose Notified does not lower-case to
"yes" get a delivery attempt (result ignored) and are rewritten with
`answeredAt := now` and Notified "Yes"; all other rows are untouched.
Returns the delivery target (if any) and the stored row. -/
def syncTicketRow (now : String) (t : Ticket) : Option String × Ticket :=
  if t.answer ≠ "" ∧ jsToLower t.notified ≠ "yes" then
    (some t.userId, { t with answeredAt := now, notified := "Yes" })
  else (none, t)

/-- The full `/admin/sync` ticket scan: the list of delivery targets in
order and the sheet contents after the run. -/
def syncScan (tickets : List Ticket) (now : String) : List String × List Ticket :=
  match tickets with
  | [] => ([], [])
  | t :: ts =>
      let p := syncTicketRow now t
      let q := syncScan ts now
      (match p.1 with
       | some u => u :: q.1
       | none => q.1,
       p.2 :: q.2)

-- ========================================
-- Admin HTTP endpoints (secret gate)
-- ========================================

/-- The shared gate of the three admin endpoints (src/index.js lines
1677-1679, 1723-1725, 1755-1757): `!ADMIN_SYNC_SECRET || secret !==
ADMIN_SYNC_SECRET` answers 403 before anything else runs. -/
def adminForbidden (cfg provided : String) : Bool := cfg = "" || provided ≠ cfg

/-- `GET /admin/sync` (src/index.js lines 1676-1719): status plus the
effect trace (a 403 performs no table access at all). -/
def adminSyncEndpoint (cfg provided : String) (tickets : List Ticket) (now : String) :
    Nat × List Eff :=
  if adminForbidden cfg provided then (403, [])
  else
    (200, .readTable "Tickets" ::
      ((syncScan tickets now).1.map (fun u => Eff.sendMsg u none) ++
       (syncScan tickets now).2.map (fun t => Eff.writeTicket 0 t)))

/-- The sheet list exported by `GET /admin/backup` (src/index.js lines
1729-1734). -/
def backupSheets : List String :=
  ["Users", "State", "Tickets", "EmailLog", "InvestRequests", "WithdrawRequests",
   "BroadcastLogs", "Announcements", "FAQ", "UserActions", "TicketRateLimits"]

/-- `GET /admin/backup` (src/index.js lines 1722-1751). -/
def adminBackupEndpoint (cfg provided : String) : Nat × List Eff :=
  if adminForbidden cfg provided then (403, [])
  else (200, backupSheets.map Eff.readTable)

/-- `GET /admin/stats` (src/index.js lines 1754-1786). -/
def adminStatsEndpoint (cfg provided : String) : Nat × List Eff :=
  if adminForbidden cfg provided then (403, [])
  else (200, [.readTable "Users", .readTable "Tickets"])

-- ========================================
-- Exception layer of the reply delivery (for the error-handling claims)
-- ========================================

/-- The `try` block wrapped around the reply delivery (src/index.js lines
1399-1408): `await sendMessage(...)` — which returns an `Option` and
cannot raise — followed by the `updateRow` flipping Notified to "Yes";
only the store call can raise. -/
def replyTryBlock (transport : TgOutcome) (store : Except String Unit) :
    Except String String :=
  let _mid := sendMessageM transport
  match store with
  | .ok _ => .ok "Yes"
  | .error e => .error e

/-- The whole `try/catch` (src/index.js lines 1399-1411): the catch arm
logs and keeps the previously stored Notified value.  Returns the stored
Notified value and whether the catch arm ran. -/
def replyCatch (transport : TgOutcome) (store : Except String Unit) (prev : String) :
    String × Bool :=
  match replyTryBlock transport store with
  | .ok v => (v, false)
  | .error _ => (prev, true)

-- ========================================
-- Trace observations
-- ========================================

/-- The ticket rows persisted by a trace, in program order. -/
def writesOf (tr : List Eff) : List Ticket :=
  tr.filterMap (fun e =>
    match e with
    | .writeTicket _ t => some t
    | _ => none)

/-- The stored Notified values of a row sequence never step from "Yes"
back to a non-"Yes" value (the monotonicity asserted by the spec). -/
def notifiedChainOk : List Ticket → Bool
  | a :: b :: rest =>
      (!(a.notified == "Yes") || (b.notified == "Yes")) && notifiedChainOk (b :: rest)
  | _ => true

/-- Some session write in the trace happens before a later send attempt. -/
def sessionWriteBeforeSend : List Eff → Bool
  | [] => false
  | .writeSession _ _ :: rest =>
      rest.any (fun e =>
        match e with
        | .sendMsg _ _ => true
        | _ => false) || sessionWriteBeforeSend rest
  | _ :: rest => sessionWriteBeforeSend rest

/-- No effect of the trace deletes or edits a chat message. -/
def noDeleteOrEdit (tr : List Eff) : Bool :=
  tr.all (fun e =>
    match e with
    | .delMsg _ _ => false
    | .editMsg _ _ => false
    | _ => true)

/-- No effect of the trace deletes a chat message. -/
def noDelete (tr : List Eff) : Bool :=
  tr.all (fun e =>
    match e with
    | .delMsg _ _ => false
    | _ => true)

-- ========================================
-- Helper lemmas: rate limiters
-- ========================================

/-- Any allowed call stamps the row with the call time and a positive count. -/
lemma tick_allow_state (s : Option TicketRL) (t : Nat)
    (h : (canSendTicketM s t).1 = true) :
    (canSendTicketM s t).2.lastAt = t ∧ 1 ≤ (canSendTicketM s t).2.count := by
  cases s with
  | none => exact ⟨rfl, Nat.le_refl 1⟩
  | some r =>
      by_cases h1 : t < r.lastAt + dayMs
      · by_cases h2 : 3 ≤ r.count
        · exfalso; simp [canSendTicketM, if_pos h1, if_pos h2] at h
        · simp only [canSendTicketM, if_pos h1, if_neg h2]
          exact ⟨trivial, Nat.succ_le_succ (Nat.zero_le _)⟩
      · simp only [canSendTicketM, if_neg h1]
        exact ⟨trivial, Nat.le_refl 1⟩

/-- An allowed call inside the window increments the count and re-stamps. -/
lemma tick_window_allow (r : TicketRL) (t : Nat) (hw : t < r.lastAt + dayMs)
    (h : (canSendTicketM (some r) t).1 = true) :
    r.count < 3 ∧ (canSendTicketM (some r) t).2 = ⟨r.count + 1, t⟩ := by
  simp only [canSendTicketM, if_pos hw] at h ⊢
  by_cases h3 : 3 ≤ r.count
  · rw [if_pos h3] at h; simp at h
  · rw [if_neg h3]; exact ⟨Nat.lt_of_not_le h3, rfl⟩

/-- A call inside the window against a saturated count is denied verbatim. -/
lemma tick_denied (r : TicketRL) (t : Nat) (hw : t < r.lastAt + dayMs)
    (hc : 3 ≤ r.count) : canSendTicketM (some r) t = (false, r) := by
  simp [canSendTicketM, if_pos hw, if_pos hc]

/-- Email-limiter analogue of `tick_allow_state`. -/
lemma email_allow_state (s : Option EmailRL) (em : String) (t : Nat)
    (h : (canSendEmailM s em t).1 = true) :
    (canSendEmailM s em t).2.lastAt = t ∧ 1 ≤ (canSendEmailM s em t).2.count := by
  cases s with
  | none => exact ⟨rfl, Nat.le_refl 1⟩
  | some r =>
      by_cases h1 : t < r.lastAt + dayMs
      · by_cases h2 : 3 ≤ r.count
        · exfalso; simp [canSendEmailM, if_pos h1, if_pos h2] at h
        · simp only [canSendEmailM, if_pos h1, if_neg h2]
          exact ⟨trivial, Nat.succ_le_succ (Nat.zero_le _)⟩
      · simp only [canSendEmailM, if_neg h1]
        exact ⟨trivial, Nat.le_refl 1⟩

/-- Email-limiter analogue of `tick_window_allow`. -/
lemma email_window_allow (r : EmailRL) (em : String) (t : Nat)
    (hw : t < r.lastAt + dayMs) (h : (canSendEmailM (some r) em t).1 = true) :
    r.count < 3 ∧
      (canSendEmailM (some r) em t).2 = { r with count := r.count + 1, lastAt := t } := by
  simp only [canSendEmailM, if_pos hw] at h ⊢
  by_cases h3 : 3 ≤ r.count
  · rw [if_pos h3] at h; simp at h
  · rw [if_neg h3]; exact ⟨Nat.lt_of_not_le h3, rfl⟩

/-- Email-limiter analogue of `tick_denied`. -/
lemma email_denied (r : EmailRL) (em : String) (t : Nat)
    (hw : t < r.lastAt + dayMs) (hc : 3 ≤ r.count) :
    canSendEmailM (some r) em t = (false, r) := by
  simp [canSendEmailM, if_pos hw, if_pos hc]

/-- Three allowed ticket-limiter calls inside a 24h span anchored at the
first call drive the stored count to at least 3, so a fourth call in the
span is denied and leaves the row untouched. -/
lemma tick_three_then_denied (s0 : Option TicketRL) (t1 t2 t3 t4 : Nat)
    (h12 : t1 ≤ t2) (h23 : t2 ≤ t3) (h34 : t3 ≤ t4) (hspan : t4 < t1 + dayMs)
    (ht : (tickRun s0 [t1, t2, t3]).1 = [true, true, true]) :
    ∀ r : TicketRL, (tickRun s0 [t1, t2, t3]).2 = some r →
      canSendTicketM (some r) t4 = (false, r) := by
  intro r hr
  have hunfold : tickRun s0 [t1, t2, t3] =
      ([(canSendTicketM s0 t1).1,
        (canSendTicketM (some (canSendTicketM s0 t1).2) t2).1,
        (canSendTicketM
          (some (canSendTicketM (some (canSendTicketM s0 t1).2) t2).2) t3).1],
       some (canSendTicketM
          (some (canSendTicketM (some (canSendTicketM s0 t1).2) t2).2) t3).2) := rfl
  rw [hunfold] at ht hr
  have h123 : (canSendTicketM s0 t1).1 = true ∧
      (canSendTicketM (some (canSendTicketM s0 t1).2) t2).1 = true ∧
      (canSendTicketM
        (some (canSendTicketM (some (canSendTicketM s0 t1).2) t2).2) t3).1 = true := by
    simpa using ht
  obtain ⟨h1, h2, h3⟩ := h123
  have hr2 : (canSendTicketM
      (some (canSendTicketM (some (canSendTicketM s0 t1).2) t2).2) t3).2 = r := by
    simpa using hr
  obtain ⟨hl1, hc1⟩ := tick_allow_state s0 t1 h1
  have hw2 : t2 < (canSendTicketM s0 t1).2.lastAt + dayMs := by
    rw [hl1]; exact lt_of_le_of_lt (le_trans h23 h34) hspan
  obtain ⟨_, hstep2⟩ := tick_window_allow _ t2 hw2 h2
  have hc2 : 2 ≤ (canSendTicketM (some (canSendTicketM s0 t1).2) t2).2.count := by
    rw [hstep2]; exact Nat.succ_le_succ hc1
  have hl2 : (canSendTicketM (some (canSendTicketM s0 t1).2) t2).2.lastAt = t2 := by
    rw [hstep2]
  have hw3 : t3 <
      (canSendTicketM (some (canSendTicketM s0 t1).2) t2).2.lastAt + dayMs := by
    rw [hl2]
    calc t3 ≤ t4 := h34
      _ < t1 + dayMs := hspan
      _ ≤ t2 + dayMs := Nat.add_le_add_right h12 dayMs
  obtain ⟨_, hstep3⟩ := tick_window_allow _ t3 hw3 h3
  have hc3 : 3 ≤ r.count := by
    rw [← hr2, hstep3]; exact Nat.succ_le_succ hc2
  have hl3 : r.lastAt = t3 := by rw [← hr2, hstep3]
  have hw4 : t4 < r.lastAt + dayMs := by
    rw [hl3]
    calc t4 < t1 + dayMs := hspan
      _ ≤ t3 + dayMs := Nat.add_le_add_right (le_trans h12 h23) dayMs
  exact tick_denied r t4 hw4 hc3

/-- Email-limiter analogue of `tick_three_then_denied`. -/
lemma email_three_then_denied (e0 : Option EmailRL) (em : String) (t1 t2 t3 t4 : Nat)
    (h12 : t1 ≤ t2) (h23 : t2 ≤ t3) (h34 : t3 ≤ t4) (hspan : t4 < t1 + dayMs)
    (he : (emailRun e0 em [t1, t2, t3]).1 = [true, true, true]) :
    ∀ r : EmailRL, (emailRun e0 em [t1, t2, t3]).2 = some r →
      canSendEmailM (some r) em t4 = (false, r) := by
  intro r hr
  have hunfold : emailRun e0 em [t1, t2, t3] =
      ([(canSendEmailM e0 em t1).1,
        (canSendEmailM (some (canSendEmailM e0 em t1).2) em t2).1,
        (canSendEmailM
          (some (canSendEmailM (some (canSendEmailM e0 em t1).2) em t2).2) em t3).1],
       some (canSendEmailM
          (some (canSendEmailM (some (canSendEmailM e0 em t1).2) em t2).2) em t3).2) := rfl
  rw [hunfold] at he hr
  have h123 : (canSendEmailM e0 em t1).1 = true ∧
      (canSendEmailM (some (canSendEmailM e0 em t1).2) em t2).1 = true ∧
      (canSendEmailM
        (some (canSendEmailM (some (canSendEmailM e0 em t1).2) em t2).2) em t3).1 = true := by
    simpa using he
  obtain ⟨h1, h2, h3⟩ := h123
  have hr2 : (canSendEmailM
      (some (canSendEmailM (some (canSendEmailM e0 em t1).2) em t2).2) em t3).2 = r := by
    simpa using hr
  obtain ⟨hl1, hc1⟩ := email_allow_state e0 em t1 h1
  have hw2 : t2 < (canSendEmailM e0 em t1).2.lastAt + dayMs := by
    rw [hl1]; exact lt_of_le_of_lt (le_trans h23 h34) hspan
  obtain ⟨_, hstep2⟩ := email_window_allow _ em t2 hw2 h2
  have hc2 : 2 ≤ (canSendEmailM (some (canSendEmailM e0 em t1).2) em t2).2.count := by
    rw [hstep2]; exact Nat.succ_le_succ hc1
  have hl2 : (canSendEmailM (some (canSendEmailM e0 em t1).2) em t2).2.lastAt = t2 := by
    rw [hstep2]
  have hw3 : t3 <
      (canSendEmailM (some (canSendEmailM e0 em t1).2) em t2).2.lastAt + dayMs := by
    rw [hl2]
    calc t3 ≤ t4 := h34
      _ < t1 + dayMs := hspan
      _ ≤ t2 + dayMs := Nat.add_le_add_right h12 dayMs
  obtain ⟨_, hstep3⟩ := email_window_allow _ em t3 hw3 h3
  have hc3 : 3 ≤ r.count := by
    rw [← hr2, hstep3]; exact Nat.succ_le_succ hc2
  have hl3 : r.lastAt = t3 := by rw [← hr2, hstep3]
  have hw4 : t4 < r.lastAt + dayMs := by
    rw [hl3]
    calc t4 < t1 + dayMs := hspan
      _ ≤ t3 + dayMs := Nat.add_le_add_right (le_trans h12 h23) dayMs
  exact email_denied r em t4 hw4 hc3

-- ========================================
-- Claim theorems
-- ========================================

/-- C1.  For every identity: once `canSendTicket` has allowed three calls
inside a 24-hour span anchored at the first allowed call, a fourth call
inside that span is denied and the denial leaves the counter row (count
and last-action timestamp) untouched; `canSendEmailToUser` satisfies the
same property with the same limit 3.  The last two conjuncts state in
full generality that any denied call of either limiter leaves its row
unchanged. -/
theorem c1_rate_limit_fourth_call_denied
    (s0 : Option TicketRL) (e0 : Option EmailRL) (em : String)
    (t1 t2 t3 t4 : Nat) (h12 : t1 ≤ t2) (h23 : t2 ≤ t3) (h34 : t3 ≤ t4)
    (hspan : t4 < t1 + dayMs)
    (ht : (tickRun s0 [t1, t2, t3]).1 = [true, true, true])
    (he : (emailRun e0 em [t1, t2, t3]).1 = [true, true, true]) :
    (∀ r : TicketRL, (tickRun s0 [t1, t2, t3]).2 = some r →
        canSendTicketM (some r) t4 = (false, r)) ∧
    (∀ r : EmailRL, (emailRun e0 em [t1, t2, t3]).2 = some r →
        canSendEmailM (some r) em t4 = (false, r)) ∧
    (∀ (r : TicketRL) (t : Nat), (canSendTicketM (some r) t).1 = false →
        (canSendTicketM (some r) t).2 = r) ∧
    (∀ (r : EmailRL) (t : Nat), (canSendEmailM (some r) em t).1 = false →
        (canSendEmailM (some r) em t).2 = r) := by
  refine ⟨tick_three_then_denied s0 t1 t2 t3 t4 h12 h23 h34 hspan ht,
          email_three_then_denied e0 em t1 t2 t3 t4 h12 h23 h34 hspan he, ?_, ?_⟩
  · intro r t h
    by_cases h1 : t < r.lastAt + dayMs
    · by_cases h2 : 3 ≤ r.count
      · simp [canSendTicketM, if_pos h1, if_pos h2]
      · exfalso; simp [canSendTicketM, if_pos h1, if_neg h2] at h
    · exfalso; simp [canSendTicketM, if_neg h1] at h
  · intro r t h
    by_cases h1 : t < r.lastAt + dayMs
    · by_cases h2 : 3 ≤ r.count
      · simp [canSendEmailM, if_pos h1, if_pos h2]
      · exfalso; simp [canSendEmailM, if_pos h1, if_neg h2] at h
    · exfalso; simp [canSendEmailM, if_neg h1] at h

/-- C1 witness: a concrete run — three ticket (resp. email) submissions at
times 0, 1, 2 ms from a fresh counter are allowed, and the fourth at time
3 ms is denied with the row `⟨count 3, lastAt 2⟩` unchanged. -/
theorem c1_rate_limit_witness :
    canSendTicketM (some ⟨3, 2⟩) 3 = (false, ⟨3, 2⟩) ∧
    canSendEmailM (some ⟨"a@b.com", 3, 2⟩) "a@b.com" 3 = (false, ⟨"a@b.com", 3, 2⟩) := by
  have h := c1_rate_limit_fourth_call_denied none none "a@b.com" 0 1 2 3
    (by decide) (by decide) (by decide) (by decide) (by decide) (by decide)
  exact ⟨h.1 ⟨3, 2⟩ (by decide), h.2.1 ⟨"a@b.com", 3, 2⟩ (by decide)⟩

/-- A row that already went through one sync pass is never matched by a
second pass: its Notified is either untouched (condition already false)
or now reads "Yes". -/
lemma syncTicketRow_stable (now1 now2 : String) (t : Ticket) :
    syncTicketRow now2 (syncTicketRow now1 t).2 = (none, (syncTicketRow now1 t).2) := by
  by_cases h : t.answer ≠ "" ∧ jsToLower t.notified ≠ "yes"
  · have hYes : jsToLower "Yes" = "yes" := by decide
    simp only [syncTicketRow, if_pos h]
    simp [syncTicketRow, hYes]
  · simp only [syncTicketRow, if_neg h]

/-- C4.  Running the `/admin/sync` ticket scan a second time on the rows
left by a first run delivers zero notifications and rewrites no row —
an idempotent no-op — for every starting sheet and every pair of scan
timestamps (the first run marks every matched row Notified "Yes" whether
or not its delivery attempt succeeded, since the send result is
discarded). -/
theorem c4_sync_scan_idempotent (tickets : List Ticket) (now1 now2 : String) :
    syncScan (syncScan tickets now1).2 now2 = ([], (syncScan tickets now1).2) := by
  induction tickets with
  | nil => rfl
  | cons t ts ih =>
      have hstep := syncTicketRow_stable now1 now2 t
      simp only [syncScan]
      rw [hstep, ih]

/-- C10.  `telegramCall` swallows a rejected transport promise and
returns `null`; hence `sendMessage` never raises and a failed delivery is
observable only as a `null` message id (`none`); consequently the
`try/catch` wrapped around the reply delivery completes its `try` arm for
every transport outcome whenever the store write succeeds — the catch arm
is unreachable through a transport failure. -/
theorem c10_transport_errors_swallowed :
    (∀ e : String, telegramCallM (.thrown e) = none) ∧
    (∀ e : String, sendMessageM (.thrown e) = none) ∧
    (∀ mid : Nat, sendMessageM (.resp true mid) = some mid) ∧
    (∀ mid : Nat, sendMessageM (.resp false mid) = none) ∧
    (∀ (transport : TgOutcome) (prev : String),
        replyCatch transport (.ok ()) prev = ("Yes", false)) := by
  refine ⟨fun _ => rfl, fun _ => rfl, fun _ => rfl, fun _ => rfl, ?_⟩
  intro transport prev
  cases transport <;> rfl

/-- C3 (code evaluation at the failing input).  An admin reply to the
open ticket T123 whose delivery to the owner fails (the transport call
rejects, so `sendMessage` yields `none`) still ends with the stored row
carrying Notified "Yes": the catch arm does not run (`replyCatch` returns
`("Yes", false)` on a thrown transport), and the persisted sheet row is
marked notified although the trace records the failed send.  The spec
instead requires Notified to remain "No" so the sync scan can retry. -/
theorem c3_delivery_failure_still_marks_notified :
    replyCatch (.thrown "ETIMEDOUT") (.ok ()) "No" = ("Yes", false) ∧
    sendMessageM (.thrown "ETIMEDOUT") = none ∧
    (adminReply [⟨"T123", "777", "a@b.com", "help", "", "c0", "", "No"⟩]
        "admin" "T123" "reply text" "now1" none none).2 =
      [⟨"T123", "777", "a@b.com", "help", "reply text", "c0", "now1", "Yes"⟩] ∧
    Eff.sendMsg "777" none ∈
      (adminReply [⟨"T123", "777", "a@b.com", "help", "", "c0", "", "No"⟩]
        "admin" "T123" "reply text" "now1" none none).1 := by
  refine ⟨rfl, rfl, ?_, ?_⟩ <;> decide

/-- C2 counterexample.  A second admin reply to the already answered and
already notified ticket T9 first persists the new answer with Notified
reset to "No": the stored row sequence (initial row followed by the rows
written by the handler) steps from "Yes" back to "No", so the flag is not
monotone across the repository's operations. -/
theorem c2_counterexample_notified_not_monotone :
    (⟨"T9", "42", "e@x.com", "q", "old answer", "c0", "a0", "Yes"⟩ : Ticket).notified
        = "Yes" ∧
    notifiedChainOk
      (⟨"T9", "42", "e@x.com", "q", "old answer", "c0", "a0", "Yes"⟩ ::
        writesOf (adminReply
          [⟨"T9", "42", "e@x.com", "q", "old answer", "c0", "a0", "Yes"⟩]
          "admin" "T9" "new answer" "t1" (some 5) (some 6)).1) = false := by
  exact ⟨rfl, by decide⟩

/-- C2 (amended).  A Ticket's Notified flag is written "Yes" only together
with a non-empty Answer and only after a delivery attempt to the owner in
the same operation; ticket creation starts it at "No"; and the sync scan
never lowers it.  The flag is however not globally monotone: an admin
reply first persists the fresh answer with Notified reset to "No" (the
exact trace below) before the delivery attempt and the "Yes" write, so a
re-reply to an already notified ticket steps the stored flag from "Yes"
to "No". -/
theorem c2_amended_notified_lifecycle :
    (∀ (tickets : List Ticket) (adminId tid text now : String)
        (mid midAdmin : Option Nat) (i : Nat) (t : Ticket),
        findTicketIdx tickets tid = some (i, t) → text ≠ "" →
        (adminReply tickets adminId tid text now mid midAdmin).1 =
          [.writeTicket i { t with answer := text, answeredAt := now, notified := "No" },
           .sendMsg t.userId mid,
           .writeTicket i { t with answer := text, answeredAt := now, notified := "Yes" },
           .writeSession adminId clearedSession,
           .sendMsg adminId midAdmin]) ∧
    (∀ (tickets : List Ticket) (now : String),
        List.Forall₂ (fun src out =>
          out = src ∨ (out.notified = "Yes" ∧ out.answer ≠ "" ∧
            out.userId ∈ (syncScan tickets now).1)) tickets (syncScan tickets now).2) ∧
    (∀ tid uid em text c, (createTicketRow tid uid em text c).notified = "No") := by
  refine ⟨?_, ?_, fun _ _ _ _ _ => rfl⟩
  · intro tickets adminId tid text now mid midAdmin i t hfind _
    simp only [adminReply, hfind]
  · intro tickets now
    induction tickets with
    | nil => exact List.Forall₂.nil
    | cons t ts ih =>
        by_cases h : t.answer ≠ "" ∧ jsToLower t.notified ≠ "yes"
        · have hdel : (syncScan (t :: ts) now).1 = t.userId :: (syncScan ts now).1 := by
            simp [syncScan, syncTicketRow, if_pos h]
          have hrows : (syncScan (t :: ts) now).2 =
              { t with answeredAt := now, notified := "Yes" } :: (syncScan ts now).2 := by
            simp [syncScan, syncTicketRow, if_pos h]
          rw [hdel, hrows]
          refine List.Forall₂.cons (Or.inr ⟨rfl, h.1, List.mem_cons_self _ _⟩) ?_
          exact ih.imp (fun a b hab => hab.elim Or.inl
            (fun hy => Or.inr ⟨hy.1, hy.2.1, List.mem_cons_of_mem _ hy.2.2⟩))
        · have hdel : (syncScan (t :: ts) now).1 = (syncScan ts now).1 := by
            simp [syncScan, syncTicketRow, if_neg h]
          have hrows : (syncScan (t :: ts) now).2 = t :: (syncScan ts now).2 := by
            simp [syncScan, syncTicketRow, if_neg h]
          rw [hdel, hrows]
          exact List.Forall₂.cons (Or.inl rfl) ih

/-- A valid email is in particular non-empty. -/
lemma validEmail_ne_empty (e : String) (h : isValidEmail e = true) : e ≠ "" := by
  intro he; rw [he] at h; exact absurd h (by decide)

/-- `registerOrUpdateUser` with a truthy email and confirmation flag
leaves the looked-up row carrying exactly that email and flag, whether it
updated an existing row or appended a fresh one. -/
lemma findUser_register (users : List UserRow) (uid fn ln unm em conf now : String)
    (hem : em ≠ "") (hconf : conf ≠ "") :
    (findUser (registerOrUpdateUserM users uid fn ln unm em conf now) uid).map
      (fun r => (r.email, r.emailConfirmed)) = some (em, conf) := by
  induction users with
  | nil =>
      simp [registerOrUpdateUserM, findUser, List.find?, jsOr, hconf]
  | cons r rs ih =>
      by_cases h : r.userId = uid
      · have hid : (applyUserUpdate r fn ln unm em conf now).userId = uid := h
        simp [registerOrUpdateUserM, if_pos h, findUser, List.find?, hid,
          applyUserUpdate, hem, hconf, h]
      · simpa [registerOrUpdateUserM, if_neg h, findUser, List.find?, h] using ih

/-- C5.  Registration round-trip: at `awaiting_email_1`, a valid email E1
not used by another identity advances to `awaiting_email_2` carrying E1;
confirming with any case-insensitive match of E1 ends with the session
cleared (idle) and the user row storing exactly E1 with EmailConfirmed
"Yes"; confirming with a case-insensitive mismatch returns the session to
`awaiting_email_1` with the draft discarded and the Users sheet
untouched. -/
theorem c5_email_registration_roundtrip
    (users : List UserRow) (emailLog : Option EmailRL)
    (uid fn ln unm now : String) (nowMs : Nat) (s : Session)
    (e1 t2 t2x : String) (mid1 midErr midMenu midMail : Option Nat) (delOut : TgOutcome)
    (hvalid : isValidEmail e1 = true)
    (hunused : usedByOther users uid e1 = false)
    (hmatch : jsToLower t2 = jsToLower e1)
    (hdiff : jsToLower t2x ≠ jsToLower e1) :
    ((awaitingEmail1 users uid s e1 mid1).2.step = "awaiting_email_2" ∧
     (awaitingEmail1 users uid s e1 mid1).2.tempData = e1) ∧
    ((awaitingEmail2 users emailLog uid fn ln unm now nowMs
        (awaitingEmail1 users uid s e1 mid1).2 t2 midErr midMenu midMail delOut).2.1 =
          clearedSession ∧
     (findUser (awaitingEmail2 users emailLog uid fn ln unm now nowMs
          (awaitingEmail1 users uid s e1 mid1).2 t2 midErr midMenu midMail delOut).2.2
        uid).map (fun r => (r.email, r.emailConfirmed)) = some (e1, "Yes")) ∧
    ((awaitingEmail2 users emailLog uid fn ln unm now nowMs
        (awaitingEmail1 users uid s e1 mid1).2 t2x midErr midMenu midMail delOut).2.1.step =
          "awaiting_email_1" ∧
     (awaitingEmail2 users emailLog uid fn ln unm now nowMs
        (awaitingEmail1 users uid s e1 mid1).2 t2x midErr midMenu midMail delOut).2.1.tempData
          = "" ∧
     (awaitingEmail2 users emailLog uid fn ln unm now nowMs
        (awaitingEmail1 users uid s e1 mid1).2 t2x midErr midMenu midMail delOut).2.2
          = users) := by
  have hadv : (awaitingEmail1 users uid s e1 mid1).2 =
      { s with step := "awaiting_email_2", tempData := e1 } := by
    simp [awaitingEmail1, hvalid, hunused]
  refine ⟨⟨?_, ?_⟩, ⟨?_, ?_⟩, ?_, ?_, ?_⟩
  · rw [hadv]
  · rw [hadv]
  · rw [hadv]; simp [awaitingEmail2, hmatch]
  · rw [hadv]
    have hres : (awaitingEmail2 users emailLog uid fn ln unm now nowMs
        { s with step := "awaiting_email_2", tempData := e1 } t2 midErr midMenu midMail
        delOut).2.2 = registerOrUpdateUserM users uid fn ln unm e1 "Yes" now := by
      simp [awaitingEmail2, hmatch]
    rw [hres]
    exact findUser_register users uid fn ln unm e1 "Yes" now
      (validEmail_ne_empty e1 hvalid) (by decide)
  · rw [hadv]; simp [awaitingEmail2, hdiff]
  · rw [hadv]; simp [awaitingEmail2, hdiff]
  · rw [hadv]; simp [awaitingEmail2, hdiff]

/-- C5 witness: the concrete round-trip for user u1 submitting a@b.com and
confirming with A@B.COM (match) resp. x@b.com (mismatch). -/
theorem c5_email_registration_witness :
    (awaitingEmail1 [⟨"u1", "un", "fn", "ln", "", "No", "j", "l"⟩] "u1"
        ⟨"awaiting_email_1", "", "", ""⟩ "a@b.com" (some 1)).2.step = "awaiting_email_2" ∧
    (awaitingEmail1 [⟨"u1", "un", "fn", "ln", "", "No", "j", "l"⟩] "u1"
        ⟨"awaiting_email_1", "", "", ""⟩ "a@b.com" (some 1)).2.tempData = "a@b.com" :=
  (c5_email_registration_roundtrip
    [⟨"u1", "un", "fn", "ln", "", "No", "j", "l"⟩] none
    "u1" "fn" "ln" "un" "now" 0 ⟨"awaiting_email_1", "", "", ""⟩
    "a@b.com" "A@B.COM" "x@b.com" (some 1) none (some 2) none (.resp true 0)
    (by decide) (by decide) (by decide) (by decide)).1

/-- C2 amended witness: the reply trace at a concrete ticket. -/
theorem c2_amended_witness :
    (adminReply [⟨"T9", "42", "e@x.com", "q", "", "c0", "", "No"⟩]
        "admin" "T9" "an answer" "t1" (some 5) (some 6)).1 =
      [.writeTicket 0 ⟨"T9", "42", "e@x.com", "q", "an answer", "c0", "t1", "No"⟩,
       .sendMsg "42" (some 5),
       .writeTicket 0 ⟨"T9", "42", "e@x.com", "q", "an answer", "c0", "t1", "Yes"⟩,
       .writeSession "admin" clearedSession,
       .sendMsg "admin" (some 6)] :=
  c2_amended_notified_lifecycle.1
    [⟨"T9", "42", "e@x.com", "q", "", "c0", "", "No"⟩]
    "admin" "T9" "an answer" "t1" (some 5) (some 6) 0
    ⟨"T9", "42", "e@x.com", "q", "", "c0", "", "No"⟩ (by decide) (by decide)

/-- C6 counterexample.  The email a@b.com is already registered to
identity 999, yet user 111's ticket-flow email step accepts it and
advances to `awaiting_ticket_email_2` carrying it as the draft: the
ticket-flow email step performs no uniqueness-against-other-identities
check, unlike the registration step. -/
theorem c6_counterexample_ticket_email_skips_uniqueness :
    usedByOther [⟨"999", "", "", "", "a@b.com", "Yes", "j", "l"⟩] "111" "a@b.com" = true ∧
    (awaitingTicketEmail1 "111" ⟨"awaiting_ticket_email_1", "", "", ""⟩ "a@b.com"
        (some 3)).2.step = "awaiting_ticket_email_2" ∧
    (awaitingTicketEmail1 "111" ⟨"awaiting_ticket_email_1", "", "", ""⟩ "a@b.com"
        (some 3)).2.tempData = "a@b.com" := by
  refine ⟨by decide, rfl, rfl⟩

/-- C6 (amended).  Each email-collecting step advances only on a
syntactic email match; the registration step (`awaiting_email_1`)
additionally requires the email to be unused by other identities, while
the ticket-flow step (`awaiting_ticket_email_1`) advances on syntactic
validity alone and performs no uniqueness check.  Non-advancing
submissions leave the session row untouched. -/
theorem c6_amended_email_step_validation
    (users : List UserRow) (uid : String) (s r : Session) (text : String)
    (mid : Option Nat) :
    (isValidEmail text = true → usedByOther users uid text = false →
        (awaitingEmail1 users uid s text mid).2 =
          { s with step := "awaiting_email_2", tempData := text }) ∧
    (isValidEmail text = false ∨ usedByOther users uid text = true →
        (awaitingEmail1 users uid s text mid).2 = s) ∧
    (isValidEmail text = true →
        (awaitingTicketEmail1 uid r text mid).2 =
          { r with step := "awaiting_ticket_email_2", tempData := text }) ∧
    (isValidEmail text = false → (awaitingTicketEmail1 uid r text mid).2 = r) := by
  refine ⟨?_, ?_, ?_, ?_⟩
  · intro hv hu; simp [awaitingEmail1, hv, hu]
  · intro h
    rcases h with hv | hu
    · simp [awaitingEmail1, hv]
    · by_cases hv : isValidEmail text
      · simp [awaitingEmail1, hv, hu]
      · simp [awaitingEmail1, hv]
  · intro hv; simp [awaitingTicketEmail1, hv]
  · intro hv; simp [awaitingTicketEmail1, hv]

/-- C6 amended witness: concrete evaluations of both email steps. -/
theorem c6_amended_validation_witness :
    (awaitingEmail1 [] "u" ⟨"awaiting_email_1", "", "", ""⟩ "a@b.com" none).2 =
      ⟨"awaiting_email_2", "a@b.com", "", ""⟩ ∧
    (awaitingEmail1 [] "u" ⟨"awaiting_email_1", "", "", ""⟩ "not an email" none).2 =
      ⟨"awaiting_email_1", "", "", ""⟩ ∧
    (awaitingTicketEmail1 "u" ⟨"awaiting_ticket_email_1", "", "", ""⟩ "a@b.com" none).2 =
      ⟨"awaiting_ticket_email_2", "a@b.com", "", ""⟩ :=
  ⟨(c6_amended_email_step_validation [] "u" ⟨"awaiting_email_1", "", "", ""⟩
      ⟨"awaiting_ticket_email_1", "", "", ""⟩ "a@b.com" none).1 (by decide) (by decide),
   (c6_amended_email_step_validation [] "u" ⟨"awaiting_email_1", "", "", ""⟩
      ⟨"awaiting_ticket_email_1", "", "", ""⟩ "not an email" none).2.1
      (Or.inl (by decide)),
   (c6_amended_email_step_validation [] "u" ⟨"awaiting_email_1", "", "", ""⟩
      ⟨"awaiting_ticket_email_1", "", "", ""⟩ "a@b.com" none).2.2.1 (by decide)⟩

/-- C7 counterexample.  With tracked menu id "5", pressing `back_to_main`
on that very message (so the callback message id equals the tracked id)
sends a new menu and records its id "6" while the trace contains no
delete and no edit: the previously tracked menu message is neither edited
nor superseded before the new identifier is recorded. -/
theorem c7_counterexample_back_to_main_keeps_old_menu :
    (backToMain "u" ⟨"", "", "5", ""⟩ "5" (some 6) (.resp true 0)).1 =
      [.sendMsg "u" (some 6), .writeSession "u" ⟨"", "", "6", ""⟩,
       .logAction "back_to_main"] ∧
    (backToMain "u" ⟨"", "", "5", ""⟩ "5" (some 6) (.resp true 0)).2.lastMenu = "6" ∧
    noDeleteOrEdit (backToMain "u" ⟨"", "", "5", ""⟩ "5" (some 6) (.resp true 0)).1
      = true := by
  refine ⟨by decide, rfl, by decide⟩

/-- C7 (amended).  At most one menu id is ever tracked (`lastMenu` is a
single field, and a successful new menu send records exactly its id); the
handlers that send a fresh menu delete the previously tracked message
first — except that `back_to_main` preserves the tracked message when it
is the very message whose button was pressed (its `except` id), in which
case the old message is left in the chat untracked; and the outcome of
the remote delete influences neither the trace nor the stored state, so a
stale tracked id (already deleted remotely) never aborts handling. -/
theorem c7_amended_menu_lifecycle
    (uid : String) (s : Session) (cbMid : String) (newMid : Option Nat)
    (o o2 : TgOutcome) :
    (backToMain uid s cbMid newMid o = backToMain uid s cbMid newMid o2) ∧
    (backToMainSend uid s newMid o = backToMainSend uid s newMid o2) ∧
    (s.lastMenu ≠ "" → s.lastMenu ≠ cbMid →
        Eff.delMsg uid s.lastMenu ∈ (backToMain uid s cbMid newMid o).1) ∧
    (s.lastMenu ≠ "" →
        Eff.delMsg uid s.lastMenu ∈ (backToMainSend uid s newMid o).1) ∧
    (s.lastMenu = cbMid →
        noDelete (backToMain uid s cbMid newMid o).1 = true) ∧
    (∀ m, newMid = some m →
        (backToMain uid s cbMid newMid o).2.lastMenu = toString m ∧
        (backToMainSend uid s newMid o).2.lastMenu = toString m) := by
  refine ⟨rfl, rfl, ?_, ?_, ?_, ?_⟩
  · intro h1 h2
    have hd : deleteMenuIfExistsM uid s (some cbMid) o =
        ([.delMsg uid s.lastMenu, .writeSession uid { s with lastMenu := "" }],
         { s with lastMenu := "" }) := by
      simp [deleteMenuIfExistsM, h1, h2]
    cases newMid with
    | some m => simp [backToMain, hd]
    | none => simp [backToMain, hd]
  · intro h1
    have hd : deleteMenuIfExistsM uid s none o =
        ([.delMsg uid s.lastMenu, .writeSession uid { s with lastMenu := "" }],
         { s with lastMenu := "" }) := by
      simp [deleteMenuIfExistsM, h1]
    cases newMid with
    | some m => simp [backToMainSend, hd]
    | none => simp [backToMainSend, hd]
  · intro h
    have hd : deleteMenuIfExistsM uid s (some cbMid) o = ([], s) := by
      simp [deleteMenuIfExistsM, h]
    cases newMid with
    | some m => simp [backToMain, hd, noDelete]
    | none => simp [backToMain, hd, noDelete]
  · intro m hm
    subst hm
    constructor
    · simp [backToMain]
    · simp [backToMainSend]

/-- C7 amended witness: a concrete `back_to_main_send` with tracked menu
"5" deletes it and tracks the fresh id "7"; delete outcome irrelevant. -/
theorem c7_amended_menu_witness :
    Eff.delMsg "u" "5" ∈
      (backToMainSend "u" ⟨"", "", "5", ""⟩ (some 7) (.thrown "gone")).1 ∧
    (backToMainSend "u" ⟨"", "", "5", ""⟩ (some 7) (.thrown "gone")).2.lastMenu = "7" :=
  ⟨(c7_amended_menu_lifecycle "u" ⟨"", "", "5", ""⟩ "9" (some 7)
      (.thrown "gone") (.resp true 0)).2.2.2.1 (by decide),
   ((c7_amended_menu_lifecycle "u" ⟨"", "", "5", ""⟩ "9" (some 7)
      (.thrown "gone") (.resp true 0)).2.2.2.2.2 7 rfl).2⟩

/-- C8 counterexample.  The `awaiting_email_1` step is not a rate-limited
action, yet its trace persists the new Session row (the `awaiting_email_2`
step with the draft) before attempting the outbound prompt send — the
claim requires every non-rate-limited step to persist the session only
after all its sends. -/
theorem c8_counterexample_session_persisted_before_send :
    (awaitingEmail1 [] "u" ⟨"awaiting_email_1", "", "", ""⟩ "a@b.com" (some 9)).1 =
      [.writeSession "u" ⟨"awaiting_email_2", "a@b.com", "", ""⟩,
       .sendMsg "u" (some 9)] ∧
    sessionWriteBeforeSend
      (awaitingEmail1 [] "u" ⟨"awaiting_email_1", "", "", ""⟩ "a@b.com" (some 9)).1
      = true := by
  refine ⟨by decide, by decide⟩

/-- C8 (amended).  For the rate-limited `support_ticket` action, an
allowed press persists the incremented counter row together with the
limit check before any outbound send (the first two effects are the
counter read and the counter write); but non-rate-limited steps do not
uniformly persist the session after their sends: the advancing branch of
`awaiting_email_1` writes the new Session row first and only then
attempts the prompt send. -/
theorem c8_amended_side_effect_ordering
    (rl : Option TicketRL) (nowMs : Nat) (userRec : Option UserRow) (uid : String)
    (s : Session) (mid : Option Nat) (o : TgOutcome)
    (users : List UserRow) (text : String) (mid2 : Option Nat)
    (hallow : (canSendTicketM rl nowMs).1 = true)
    (hv : isValidEmail text = true) (hu : usedByOther users uid text = false) :
    ((supportTicket rl nowMs userRec uid s mid o).1.take 2 =
        [.readTable "TicketRateLimits",
         .writeTicketLimit (canSendTicketM rl nowMs).2]) ∧
    ((awaitingEmail1 users uid s text mid2).1 =
        [.writeSession uid { s with step := "awaiting_email_2", tempData := text },
         .sendMsg uid mid2]) := by
  constructor
  · simp [supportTicket, hallow]
  · simp [awaitingEmail1, hv, hu]

/-- C8 amended witness: concrete ordering evaluations for both steps. -/
theorem c8_amended_ordering_witness :
    ((supportTicket none 0 none "u" ⟨"", "", "", ""⟩ (some 4) (.resp true 0)).1.take 2 =
        [.readTable "TicketRateLimits", .writeTicketLimit ⟨1, 0⟩]) ∧
    ((awaitingEmail1 [] "u" ⟨"awaiting_email_1", "", "", ""⟩ "a@b.com" (some 9)).1 =
        [.writeSession "u" ⟨"awaiting_email_2", "a@b.com", "", ""⟩,
         .sendMsg "u" (some 9)]) :=
  c8_amended_side_effect_ordering none 0 none "u" ⟨"", "", "", ""⟩ (some 4) (.resp true 0)
    [] "a@b.com" (some 9) (by decide) (by decide) (by decide)

/-- C9.  Every admin endpoint answers 403 with no table read or write
whenever the provided secret differs from the configured one, and an
endpoint body (with its table accesses) runs only when the secret matches
exactly (a blank configured secret refuses everything, still satisfying
the only-if direction). -/
theorem c9_admin_endpoints_secret_gate
    (cfg provided now : String) (tickets : List Ticket) :
    (provided ≠ cfg →
        adminSyncEndpoint cfg provided tickets now = (403, []) ∧
        adminBackupEndpoint cfg provided = (403, []) ∧
        adminStatsEndpoint cfg provided = (403, [])) ∧
    ((adminSyncEndpoint cfg provided tickets now).1 ≠ 403 → provided = cfg) ∧
    ((adminBackupEndpoint cfg provided).1 ≠ 403 → provided = cfg) ∧
    ((adminStatsEndpoint cfg provided).1 ≠ 403 → provided = cfg) := by
  have hgate : provided ≠ cfg → adminForbidden cfg provided = true := by
    intro h; simp [adminForbidden, h]
  refine ⟨?_, ?_, ?_, ?_⟩
  · intro h
    refine ⟨?_, ?_, ?_⟩ <;>
      simp [adminSyncEndpoint, adminBackupEndpoint, adminStatsEndpoint, hgate h]
  · intro h
    by_cases hp : provided = cfg
    · exact hp
    · exact absurd (by simp [adminSyncEndpoint, hgate hp]) h
  · intro h
    by_cases hp : provided = cfg
    · exact hp
    · exact absurd (by simp [adminBackupEndpoint, hgate hp]) h
  · intro h
    by_cases hp : provided = cfg
    · exact hp
    · exact absurd (by simp [adminStatsEndpoint, hgate hp]) h

/-- C9 witness: a wrong secret gets 403 and an empty trace on all three
endpoints. -/
theorem c9_admin_endpoints_witness :
    adminSyncEndpoint "s3cret" "wrong" [] "n" = (403, []) ∧
    adminBackupEndpoint "s3cret" "wrong" = (403, []) ∧
    adminStatsEndpoint "s3cret" "wrong" = (403, []) :=
  (c9_admin_endpoints_secret_gate "s3cret" "wrong" "n" []).1 (by decide)

end RBI24
